import Mathlib

/-!
Verification of the reactive query pipeline in `src/app.py`.

The program is a Solara application backed by DuckDB.  Its core is a set of
reactive state variables (`all_countries`, `selected_country`,
`population_range`, `max_population_in_country`, `data_df`, `is_loading`)
and three effect procedures (`load_country_list`, `update_country_stats`,
`load_filtered_data`) that run SQL queries against a tabular city dataset
and publish the results back into the reactive state.

We embed the dataset as a list of city records, the reactive state as a
structure, and each effect as a pure function from the dataset, a
query-failure flag and the current state to the new state together with a
trace of the observable events the Python function performs (opening and
closing the database connection, running the query, the `set` calls on the
reactive variables, and the diagnostic prints).  SQL query semantics
(DISTINCT/ORDER BY, MAX, WHERE/BETWEEN/ORDER BY DESC/LIMIT) are embedded as
list operations.
-/

/-- A row of the city dataset (`name, country, population, latitude,
longitude`).  Populations are non-negative integers; the coordinate columns
are embedded as rationals (they play no role in the verified properties). -/
structure CityRecord where
  name : String
  country : String
  population : Nat
  latitude : Rat
  longitude : Rat
deriving DecidableEq, Repr

/-- The aggregate of the six reactive variables of `app.py`. -/
structure PipelineState where
  all_countries : List String
  selected_country : String
  population_range : Nat × Nat
  max_population_in_country : Nat
  data_df : List CityRecord
  is_loading : Bool
deriving DecidableEq, Repr

/-- The initial values given to the reactive variables at module load:
`all_countries = []`, `selected_country = ""`,
`population_range = (0, 1000000)`, `max_population_in_country = 1000000`,
`data_df` empty, `is_loading = False`. -/
def init_state : PipelineState :=
  { all_countries := []
  , selected_country := ""
  , population_range := (0, 1000000)
  , max_population_in_country := 1000000
  , data_df := []
  , is_loading := false }

/-- Observable events performed by an effect: connection lifecycle, query
execution, writes to the reactive variables, and diagnostic prints. -/
inductive Event where
  | openConn
  | closeConn
  | runQuery
  | setLoading (b : Bool)
  | setData (rows : List CityRecord)
  | setCountries (cs : List String)
  | setSelected (c : String)
  | setMaxPop (m : Nat)
  | setRange (r : Nat × Nat)
  | log (msg : String)
deriving DecidableEq, Repr

/-- Character-wise lexicographic comparison of strings, the order used by
`ORDER BY country` (embedded explicitly so that it evaluates). -/
def charsLe : List Char → List Char → Bool
  | [], _ => true
  | _ :: _, [] => false
  | a :: as, b :: bs =>
      decide (a.val.toNat < b.val.toNat) ||
        (decide (a.val.toNat = b.val.toNat) && charsLe as bs)

/-- Lexicographic order on country names. -/
def strLe (a b : String) : Prop := charsLe a.data b.data = true

instance : DecidableRel strLe := fun a b =>
  inferInstanceAs (Decidable (charsLe a.data b.data = true))

/-- Query `SELECT DISTINCT country FROM src ORDER BY country`: the distinct
country names, sorted ascending. -/
def listCountries (db : List CityRecord) : List String :=
  ((db.map (fun r => r.country)).dedup).insertionSort strLe

/-- Query `SELECT MAX(population) FROM src WHERE country = c`: `none` models the
SQL NULL returned when no row matches. -/
def maxPopulation (db : List CityRecord) (c : String) : Option Nat :=
  ((db.filter (fun r => r.country == c)).map (fun r => r.population)).max?

/-- Descending-population order used by `ORDER BY population DESC`. -/
def popGE (a b : CityRecord) : Prop := b.population ≤ a.population

instance : DecidableRel popGE := fun a b => Nat.decLe b.population a.population

instance : IsTotal CityRecord popGE := ⟨fun a b => Nat.le_total b.population a.population⟩

instance : IsTrans CityRecord popGE := ⟨fun _ _ _ h h' => le_trans h' h⟩

/-- The main query of `load_filtered_data`:
`SELECT name, country, population, latitude, longitude FROM src
 WHERE country = c AND population BETWEEN pmin AND pmax
 ORDER BY population DESC LIMIT 500`. -/
def filteredCities (db : List CityRecord) (c : String) (pmin pmax : Nat) :
    List CityRecord :=
  (((db.filter (fun r =>
      r.country == c && decide (pmin ≤ r.population)
        && decide (r.population ≤ pmax))).insertionSort popGE).take 500)

/-- Effect `load_country_list` of `app.py`.  `qfail` says whether the query raises.
Note that on the failure path the Python code reaches `except` without
executing `con.close()` (the close sits inside the `try`), so no
`closeConn` event occurs there. -/
def load_country_list (db : List CityRecord) (qfail : Bool)
    (s : PipelineState) : PipelineState × List Event :=
  if qfail then
    (s, [Event.openConn, Event.log "Error loading countries"])
  else
    let country_list := listCountries db
    let s₁ := { s with all_countries := country_list }
    let s₂ :=
      if "USA" ∈ country_list then { s₁ with selected_country := "USA" }
      else
        match country_list with
        | [] => s₁
        | c :: _ => { s₁ with selected_country := c }
    (s₂,
      [Event.openConn, Event.runQuery, Event.setCountries country_list,
        Event.setSelected s₂.selected_country, Event.closeConn])

/-- Effect `update_country_stats` of `app.py`.  Returns immediately when
`selected_country` is empty; otherwise opens a connection, queries the
maximum population, and — only when the result is truthy (neither NULL nor
0) — publishes the new maximum and resets the range; the connection is
closed in a `finally` block on every path. -/
def update_country_stats (db : List CityRecord) (qfail : Bool)
    (s : PipelineState) : PipelineState × List Event :=
  if s.selected_country = "" then (s, [])
  else if qfail then
    (s, [Event.openConn, Event.log "Error getting stats", Event.closeConn])
  else
    match maxPopulation db s.selected_country with
    | some m =>
        if m ≠ 0 then
          ({ s with max_population_in_country := m
                  , population_range := (0, m) },
            [Event.openConn, Event.runQuery, Event.setMaxPop m,
              Event.setRange (0, m), Event.closeConn])
        else (s, [Event.openConn, Event.runQuery, Event.closeConn])
    | none => (s, [Event.openConn, Event.runQuery, Event.closeConn])

/-- Exit modes of `load_filtered_data`.  The Python function has more exit
paths than a single success/failure split: `con = get_db_connection()` runs
after `is_loading.set(True)` but *outside* the `try`, and `con.close()`
inside the `finally` precedes `is_loading.set(False)`, so either of those
raising escapes the cleanup.
  - `ok`: no call raises;
  - `connectFail`: `get_db_connection()` raises (connectivity or extension
    failure) — the exception propagates before the `try` is entered;
  - `queryFail`: the query inside the `try` raises and the `except` and
    `finally` blocks run;
  - `closeFail`: the query succeeds but `con.close()` in the `finally`
    raises, so the following `is_loading.set(False)` never runs. -/
inductive FetchOutcome where
  | ok
  | connectFail
  | queryFail
  | closeFail
deriving DecidableEq, Repr

/-- Effect `load_filtered_data` of `app.py`.  Returns immediately when
`selected_country` is empty; otherwise sets `is_loading` to `True`, opens a
connection, runs the filtered query and publishes the result; a raised
query failure publishes the empty dataset instead and the `finally` block
then closes the connection and sets `is_loading` to `False`.  On the
`connectFail` exit the `try` is never entered, so `is_loading` stays `True`
and `data_df` keeps its previous value; on the `closeFail` exit the result
was already published inside the `try` but `is_loading.set(False)` is
skipped. -/
def load_filtered_data (db : List CityRecord) (outcome : FetchOutcome)
    (s : PipelineState) : PipelineState × List Event :=
  let country := s.selected_country
  let pmin := s.population_range.1
  let pmax := s.population_range.2
  if country = "" then (s, [])
  else
    match outcome with
    | FetchOutcome.connectFail =>
        ({ s with is_loading := true }, [Event.setLoading true])
    | FetchOutcome.queryFail =>
        ({ s with is_loading := false, data_df := [] },
          [Event.setLoading true, Event.openConn,
            Event.log "Error executing query", Event.setData [],
            Event.closeConn, Event.setLoading false])
    | FetchOutcome.closeFail =>
        let result := filteredCities db country pmin pmax
        ({ s with is_loading := true, data_df := result },
          [Event.setLoading true, Event.openConn, Event.runQuery,
            Event.setData result])
    | FetchOutcome.ok =>
        let result := filteredCities db country pmin pmax
        ({ s with is_loading := false, data_df := result },
          [Event.setLoading true, Event.openConn, Event.runQuery,
            Event.setData result, Event.closeConn, Event.setLoading false])

/-- Write `selected_country.set(v)`: a `solara.reactive` write stores the value
unconditionally; `app.py` wraps it in no validation. -/
def set_selected_country (s : PipelineState) (v : String) : PipelineState :=
  { s with selected_country := v }

/-- Concrete dataset taken from the scenario in the specification (§8):
New York and LA in the USA, Paris in France. -/
def sampleDb : List CityRecord :=
  [ { name := "New York", country := "USA", population := 8419000,
      latitude := 40, longitude := -74 }
  , { name := "LA", country := "USA", population := 3980000,
      latitude := 34, longitude := -118 }
  , { name := "Paris", country := "France", population := 2148000,
      latitude := 48, longitude := 2 } ]

/-- State after the country list for `sampleDb` has been loaded and `"USA"`
selected; the population range still has its initial value. -/
def sampleState : PipelineState :=
  { init_state with all_countries := ["France", "USA"], selected_country := "USA" }

/-- The sample state with a previously published ResultSet still in
`data_df`, used to exhibit staleness on the abnormal exit paths. -/
def staleState : PipelineState :=
  { sampleState with data_df := sampleDb }

/-- A dataset whose only country has maximum city population 0: legal under
the data model (populations are non-negative), and the case on which the
truthiness test `if max_pop:` of `update_country_stats` conflates 0 with
NULL. -/
def zeroDb : List CityRecord :=
  [ { name := "Zerotown", country := "A", population := 0,
      latitude := 0, longitude := 0 } ]

/-- State after the country list for `zeroDb` has been loaded and its single
country `"A"` selected. -/
def zeroState : PipelineState :=
  set_selected_country { init_state with all_countries := listCountries zeroDb } "A"

/-! ## Helper lemmas about the filtered query -/

lemma filteredCities_mem {db : List CityRecord} {c : String} {pmin pmax : Nat}
    {r : CityRecord} (h : r ∈ filteredCities db c pmin pmax) :
    r.country = c ∧ pmin ≤ r.population ∧ r.population ≤ pmax := by
  unfold filteredCities at h
  have h1 := List.take_subset 500 _ h
  rw [List.mem_insertionSort] at h1
  have h2 := List.of_mem_filter h1
  simpa [Bool.and_eq_true, decide_eq_true_eq, and_assoc] using h2

lemma filteredCities_sorted (db : List CityRecord) (c : String)
    (pmin pmax : Nat) : (filteredCities db c pmin pmax).Sorted popGE := by
  unfold filteredCities
  exact (List.sorted_insertionSort popGE _).sublist (List.take_sublist 500 _)

lemma filteredCities_length_le (db : List CityRecord) (c : String)
    (pmin pmax : Nat) : (filteredCities db c pmin pmax).length ≤ 500 := by
  unfold filteredCities
  exact List.length_take_le 500 _

lemma load_filtered_data_success_df (db : List CityRecord) (s : PipelineState)
    (hne : ¬ s.selected_country = "") :
    ((load_filtered_data db FetchOutcome.ok s).1).data_df =
      filteredCities db s.selected_country s.population_range.1
        s.population_range.2 := by
  simp [load_filtered_data, hne]

/-! ## Claims -/

/-- C1: every record of the ResultSet published by a successful
`load_filtered_data` run with selected country `c` and population range
`(pmin, pmax)` has country `c` and population between `pmin` and `pmax`
inclusive, the sequence is sorted non-increasing by population, and its
length is at most 500. -/
theorem c1_resultset_invariants (db : List CityRecord) (s : PipelineState)
    (c : String) (pmin pmax : Nat)
    (hc : s.selected_country = c) (hne : c ≠ "")
    (hr : s.population_range = (pmin, pmax)) :
    (∀ r ∈ ((load_filtered_data db FetchOutcome.ok s).1).data_df,
        r.country = c ∧ pmin ≤ r.population ∧ r.population ≤ pmax) ∧
    ((load_filtered_data db FetchOutcome.ok s).1).data_df.Sorted popGE ∧
    ((load_filtered_data db FetchOutcome.ok s).1).data_df.length ≤ 500 := by
  have hdf := load_filtered_data_success_df db s (by rw [hc]; exact hne)
  rw [hdf, hc, hr]
  exact ⟨fun r hmem => filteredCities_mem hmem,
    filteredCities_sorted db c pmin pmax, filteredCities_length_le db c pmin pmax⟩

/-- Witness for C1 on the concrete scenario dataset. -/
theorem c1_resultset_invariants_witness :
    (∀ r ∈ ((load_filtered_data sampleDb FetchOutcome.ok sampleState).1).data_df,
        r.country = "USA" ∧ 0 ≤ r.population ∧ r.population ≤ 1000000) ∧
    ((load_filtered_data sampleDb FetchOutcome.ok sampleState).1).data_df.Sorted popGE ∧
    ((load_filtered_data sampleDb FetchOutcome.ok sampleState).1).data_df.length ≤ 500 :=
  c1_resultset_invariants sampleDb sampleState "USA" 0 1000000 rfl
    (by decide) rfl

/-- C2 as stated is false: for a country in the CountryList whose maximum
city population is 0, `update_country_stats` does not publish the maximum —
the Python truthiness test `if max_pop:` skips the update for 0 just as for
NULL — so `max_population_in_country` keeps its previous value 1000000
instead of `maxPopulation(c) = 0`, and the range is not `(0, 0)`. -/
theorem c2_zero_max_counterexample :
    "A" ∈ listCountries zeroDb ∧
    maxPopulation zeroDb "A" = some 0 ∧
    ((update_country_stats zeroDb false zeroState).1).max_population_in_country
        = 1000000 ∧
    ¬ ((update_country_stats zeroDb false zeroState).1).max_population_in_country
        = 0 ∧
    ¬ ((update_country_stats zeroDb false zeroState).1).population_range
        = (0, 0) := by
  decide

/-- C2 amended: when the selected country's maximum population is positive,
`update_country_stats` publishes it and resets the range to `(0, max)`;
a zero (or NULL) maximum leaves both fields unchanged (see C10).  The
non-negativity part of the claim holds trivially: populations are
embedded as `Nat`. -/
theorem c2_refresh_bounds_amended (db : List CityRecord) (s : PipelineState)
    (m : Nat) (hne : ¬ s.selected_country = "")
    (hmax : maxPopulation db s.selected_country = some m) (hpos : 0 < m) :
    ((update_country_stats db false s).1).max_population_in_country = m ∧
    ((update_country_stats db false s).1).population_range = (0, m) := by
  have hm : m ≠ 0 := Nat.pos_iff_ne_zero.mp hpos
  simp [update_country_stats, hne, hmax, hm]

/-- Witness for the amended C2 on the scenario dataset. -/
theorem c2_refresh_bounds_amended_witness :
    ((update_country_stats sampleDb false sampleState).1).max_population_in_country
        = 8419000 ∧
    ((update_country_stats sampleDb false sampleState).1).population_range
        = (0, 8419000) :=
  c2_refresh_bounds_amended sampleDb sampleState 8419000 (by decide)
    (by decide) (by decide)

/-- C3 fails on the code: `con = get_db_connection()` (src/app.py line 91)
runs after `is_loading.set(True)` but outside the `try`, so when
connection setup raises, the `except`/`finally` cleanup never runs:
`is_loading` stays `True` and `data_df` keeps the stale previous result,
against the claim that `is_loading` is false after every exit path.  The
query-failure path inside the `try` does behave as claimed, as the last
two conjuncts show on the same stale state. -/
theorem c3_connect_failure_leaves_loading_true_and_data_stale :
    ((load_filtered_data sampleDb FetchOutcome.connectFail staleState).1).is_loading
        = true ∧
    ((load_filtered_data sampleDb FetchOutcome.connectFail staleState).1).data_df
        = sampleDb ∧
    ¬ Event.setLoading false
        ∈ (load_filtered_data sampleDb FetchOutcome.connectFail staleState).2 ∧
    ((load_filtered_data sampleDb FetchOutcome.queryFail staleState).1).is_loading
        = false ∧
    ((load_filtered_data sampleDb FetchOutcome.queryFail staleState).1).data_df
        = [] := by
  decide

/-- C4 fails on the code: in `load_country_list` the call `con.close()` sits
inside the `try` block, so when the query raises, control jumps to
`except` and the connection opened for the call is never closed.  The
other two operations close in a `finally` block, as the two further
conjuncts show on concrete runs. -/
theorem c4_load_country_list_leaks_connection :
    (load_country_list sampleDb true init_state).2
        = [Event.openConn, Event.log "Error loading countries"] ∧
    ¬ Event.closeConn ∈ (load_country_list sampleDb true init_state).2 ∧
    Event.closeConn ∈ (load_country_list sampleDb false init_state).2 ∧
    Event.closeConn ∈ (update_country_stats sampleDb true sampleState).2 ∧
    Event.closeConn ∈ (load_filtered_data sampleDb FetchOutcome.queryFail sampleState).2 := by
  decide

/-- C5 as stated is false: the `set` operation of the `solara.reactive`
variable performs no membership validation and `app.py` wraps it in none,
so a write of a value that is neither empty nor in the CountryList is
applied, not silently ignored, and it breaks the invariant. -/
theorem c5_set_does_not_validate_counterexample :
    (set_selected_country { init_state with all_countries := ["USA"] }
        "France").selected_country = "France" ∧
    ¬ ("France" : String) = "" ∧
    ¬ "France" ∈ ({ init_state with all_countries := ["USA"] }
        : PipelineState).all_countries := by
  decide

/-- C5 amended: the `set` operation applies any value unconditionally and
leaves the CountryList untouched, so a write preserves the invariant
"SelectedCountry is empty or a member of CountryList" exactly when the
written value already satisfies it; the store itself rejects nothing. -/
theorem c5_set_unvalidated (s : PipelineState) (v : String) :
    (set_selected_country s v).selected_country = v ∧
    (set_selected_country s v).all_countries = s.all_countries ∧
    (((set_selected_country s v).selected_country = "" ∨
        (set_selected_country s v).selected_country
          ∈ (set_selected_country s v).all_countries)
      ↔ (v = "" ∨ v ∈ s.all_countries)) := by
  simp [set_selected_country]

/-- C7: after a successful `load_country_list`, the selected country is
`"USA"` when it occurs in the loaded CountryList, otherwise the first
element of the list when it is non-empty, otherwise the previous value;
and the CountryList is published. -/
theorem c7_init_selects_usa_or_first (db : List CityRecord)
    (s : PipelineState) :
    ((load_country_list db false s).1).selected_country =
      (if "USA" ∈ listCountries db then "USA"
       else
         match listCountries db with
         | [] => s.selected_country
         | c :: _ => c) ∧
    ((load_country_list db false s).1).all_countries = listCountries db := by
  constructor
  · simp only [load_country_list, Bool.false_eq_true, if_false]
    by_cases h : "USA" ∈ listCountries db
    · simp [h]
    · simp only [h, if_false]
      cases hl : listCountries db with
      | nil => simp
      | cons c cs => simp
  · simp only [load_country_list, Bool.false_eq_true, if_false]
    by_cases h : "USA" ∈ listCountries db
    · simp [h]
    · simp only [h, if_false]
      cases hl : listCountries db with
      | nil => simp
      | cons c cs => simp

/-- C8: a failed `load_country_list` does not crash the pipeline (the
exception handler absorbs the failure and the function returns), it logs a
diagnostic, and — since `all_countries` is never written on that path and
its initial value is the empty list — downstream consumers observe an
empty CountryList. -/
theorem c8_failed_country_load_yields_empty_list (db : List CityRecord) :
    (load_country_list db true init_state).1 = init_state ∧
    ((load_country_list db true init_state).1).all_countries = [] ∧
    Event.log "Error loading countries"
      ∈ (load_country_list db true init_state).2 := by
  simp [load_country_list, init_state]

/-- C9: with an empty selected country, both `update_country_stats` and
`load_filtered_data` return immediately: the state is unchanged and the
event trace is empty — no connection, no query, no write to `is_loading`,
`data_df`, `max_population_in_country` or `population_range`. -/
theorem c9_empty_country_noop (db : List CityRecord) (qfail : Bool)
    (outcome : FetchOutcome) (s : PipelineState) (h : s.selected_country = "") :
    update_country_stats db qfail s = (s, []) ∧
    load_filtered_data db outcome s = (s, []) := by
  constructor <;> simp [update_country_stats, load_filtered_data, h]

/-- Witness for C9 at the initial state, whose selected country is empty. -/
theorem c9_empty_country_noop_witness :
    update_country_stats sampleDb false init_state = (init_state, []) ∧
    load_filtered_data sampleDb FetchOutcome.connectFail init_state
        = (init_state, []) :=
  c9_empty_country_noop sampleDb false FetchOutcome.connectFail init_state rfl

/-- C10: when the maximum-population query returns NULL (no rows) or 0, the
truthiness test `if max_pop:` of `update_country_stats` skips both `set`
calls, so the whole state — in particular `max_population_in_country` and
`population_range` — is left unchanged; the two fields are never partially
updated. -/
theorem c10_null_or_zero_max_leaves_state_unchanged (db : List CityRecord)
    (s : PipelineState)
    (h : maxPopulation db s.selected_country = none ∨
         maxPopulation db s.selected_country = some 0) :
    (update_country_stats db false s).1 = s := by
  by_cases he : s.selected_country = ""
  · simp [update_country_stats, he]
  · rcases h with h | h <;> simp [update_country_stats, he, h]

/-- Witness for C10 on the zero-population dataset. -/
theorem c10_null_or_zero_max_leaves_state_unchanged_witness :
    (update_country_stats zeroDb false zeroState).1 = zeroState :=
  c10_null_or_zero_max_leaves_state_unchanged zeroDb zeroState
    (Or.inr (by decide))
